import Mathlib

/-!
Shallow embedding of the credential & access-control subsystem of the CRM API
(`src/main.py`): password hashing, token issuance/verification, registration,
login, ownership-scoped resource handlers, listing scoping, audit emission and
the unauthenticated deal-status update.

External collaborators are idealized exactly as the spec treats them:
the SHA-256 hex digest of the `hashlib` library is an abstract parameter
`H : String → String`; the `secrets.token_hex` entropy draw is an explicit
byte-list argument; the supabase table store is a record of in-memory lists
with `eq`-filter query semantics; the `jwt` library is an idealized
signature (a token carries its claims and the key that signed it, and
decoding succeeds exactly when the keys match and the token is unexpired).
-/

namespace CRM

/-- Outcome of a Python endpoint handler: a normal return value, an
`HTTPException(status_code, detail)`, or an uncaught `TypeError`
(an uncaught exception surfaces as a 500 to the HTTP client). -/
inductive Py (α : Type) where
  | ok : α → Py α
  | err : Nat → String → Py α
  | typeError : String → Py α
deriving DecidableEq

/-- Fixed token lifetime in seconds (`JWT_EXPIRE = 1800` in `src/main.py`). -/
def JWT_EXPIRE : Nat := 1800

/-- Claim set of a JWT: the payload built by `create_jwt_token` holds the
caller-supplied data (here only an optional `sub`) plus an `exp` timestamp. -/
structure JwtClaims where
  sub : Option String := none
  exp : Nat
deriving DecidableEq

/-- Idealized signed token: `jwt.encode(payload, key, HS256)` is modelled as
the payload together with the signing key; signature validation succeeds
exactly when the verifying key equals the signing key. -/
structure JwtToken where
  claims : JwtClaims
  key : String
deriving DecidableEq

/-- Model of `jwt.encode(payload, JWT_KEY, algorithm=JWT_ALGO)`. -/
def jwt_encode (payload : JwtClaims) (key : String) : JwtToken :=
  { claims := payload, key := key }

/-- Model of `jwt.decode(token, JWT_KEY, algorithms=[JWT_ALGO])` at wall-clock
time `now`: succeeds iff the key matches and the `exp` claim is in the
future; otherwise raises `PyJWTError`, modelled as `none`. -/
def jwt_decode (tok : JwtToken) (key : String) (now : Nat) : Option JwtClaims :=
  if tok.key = key ∧ now < tok.claims.exp then some tok.claims else none

/-- Embedding of `create_jwt_token(data)` (src/main.py:34-40): the payload is
the supplied data plus `exp = utcnow() + JWT_EXPIRE`, signed with the
process key. The Python function takes exactly one parameter `data`. -/
def create_jwt_token (key : String) (now : Nat) (data : Option String) : JwtToken :=
  jwt_encode { sub := data, exp := now + JWT_EXPIRE } key

/-- Embedding of the dependency `verify_token` (src/main.py:85-101): decode;
a missing `sub` claim or any `PyJWTError` yields the same 401. -/
def verify_token (key : String) (now : Nat) (tok : JwtToken) : Py String :=
  match jwt_decode tok key now with
  | some payload =>
      match payload.sub with
      | none => .err 401 "Could not validate credentials"
      | some user_id => .ok user_id
  | none => .err 401 "Could not validate credentials"

/-- Lower-case hex digit, as produced by Python `bytes.hex()`. -/
def hexDigit (n : Nat) : Char :=
  if n < 10 then Char.ofNat (48 + n) else Char.ofNat (87 + n)

/-- Whether a character is a lower-case hexadecimal digit (codepoints of
`0`-`9` or `a`-`f`). -/
def isHexChar (c : Char) : Bool :=
  (48 ≤ c.toNat && c.toNat ≤ 57) || (97 ≤ c.toNat && c.toNat ≤ 102)

/-- Model of `secrets.token_hex` applied to an explicit entropy draw: each
byte is rendered as two lower-case hex digits. `secrets.token_hex(32)`
corresponds to an entropy list of length 32. -/
def token_hex (entropy : List Nat) : String :=
  String.mk (entropy.flatMap (fun b => [hexDigit (b % 256 / 16), hexDigit (b % 16)]))

/-- The `for _ in range(6969)` loop body of `custom_hash_password`: apply the
hex-digest hash `H` to the accumulator `n` times, first application first. -/
def hashRounds (H : String → String) : Nat → String → String
  | 0, salted => salted
  | n + 1, salted => hashRounds H n (H salted)

/-- Embedding of `custom_hash_password(password, salt=None)`
(src/main.py:42-49) with the SHA-256 hex digest abstracted as `H` and the
`secrets.token_hex(32)` draw made explicit as `entropy`: when no salt is
given the fresh salt is the hex rendering of the entropy bytes; then
`salted = password + salt` is hashed for 6969 rounds, each round feeding
the previous hex digest (and nothing else) to `H`. -/
def custom_hash_password (H : String → String) (password : String)
    (salt : Option String) (entropy : List Nat) : String × String :=
  let s := match salt with
    | none => token_hex entropy
    | some s => s
  (hashRounds H 6969 (password ++ s), s)

/-- Embedding of `verify(password, hashed, salt)` (src/main.py:81-83): the
digest is recomputed from the stored salt and compared to the stored digest
by exact equality. `hashed` and `salt` are `Option`s because the user-store
columns are nullable; Python compares `str == None` as `False`, and passes
a `None` salt through to `custom_hash_password` (which then draws fresh
entropy), so the recomputation is wrapped in `some` before comparison. -/
def verify (H : String → String) (password : String)
    (hashed : Option String) (salt : Option String) (entropy : List Nat) : Bool :=
  let test_hash := (custom_hash_password H password salt entropy).1
  some test_hash == hashed

/-- Row of the `users` table. Columns are nullable (`Option`) because the
two user-creating endpoints insert different column subsets: `register`
inserts `name, email, password_hash, password_salt, role, created_at`
while the legacy `create_user` inserts `name, email, password`. -/
structure UserRow where
  id : String
  name : String
  email : String
  password : Option String := none
  password_hash : Option String := none
  password_salt : Option String := none
  role : Option String := none
  created_at : Option String := none
deriving DecidableEq

/-- Row of the `customers` table (fields of the `Customer` model). -/
structure CustomerRow where
  id : String
  name : String
  email : Option String := none
  phone : Option String := none
  company : Option String := none
  assigned_to : Option String := none
deriving DecidableEq

/-- Row of the `deals` table (fields of the `Deal` model); the float `amt`
is modelled as an integer amount, which no claim inspects. -/
structure DealRow where
  id : String
  title : String
  amt : Int := 0
  status : String := "open"
  customer_id : Option String := none
  assigned_to : Option String := none
deriving DecidableEq

/-- Row of the append-only `audit_logs` table, as built by
`log_audit_event`. The `details` JSON dump is modelled as an opaque
string payload; no claim inspects its contents. -/
structure AuditEvent where
  user_id : Option String := none
  action : Option String := none
  type : Option String := none
  resource_id : Option String := none
  details : Option String := none
  ip : Option String := none
  agent : Option String := none
  timestamp : String
deriving DecidableEq

/-- The external supabase table store, modelled as in-memory lists with
`eq`-filter query semantics. -/
structure Store where
  users : List UserRow
  customers : List CustomerRow
  deals : List DealRow
  audit : List AuditEvent
deriving DecidableEq

/-- Python truthiness of an optional string parameter (`if assigned_to:`):
`None` and the empty string are falsy. -/
def truthy : Option String → Bool
  | none => false
  | some s => !(s == "")

/-- Embedding of `log_audit_event` (src/main.py:51-74): the insert into
`audit_logs` is wrapped in `try/except`, so a failing insert (modelled by
the `fails` flag) leaves the log unchanged and the function still returns
normally; a successful insert appends the event. -/
def log_audit_event (fails : Bool) (ev : AuditEvent) (log : List AuditEvent) : List AuditEvent :=
  if fails then log else log ++ [ev]

/-- Response model `Token` (`access_token`, `token_type`). -/
structure TokenResp where
  access_token : JwtToken
  token_type : String
deriving DecidableEq

/-- Python `TypeError` message raised by the calls
`create_jwt_token(data={...}, expires_delta=token_expiry)` in `register`,
`login` and `refresh_token`: the function (src/main.py:34) accepts only
`data`, so every success path of those endpoints raises before returning. -/
def expiresDeltaTypeError : String :=
  "TypeError: create_jwt_token() got an unexpected keyword argument expires_delta"

/-- Embedding of `POST /auth/register` (src/main.py:815-861). `entropy`
feeds the salt draw, `newId` is the store-assigned id of the inserted row,
`ts` the request timestamp, `auditFails` whether the audit insert fails.
On a fresh email the user row is inserted and then the
`create_jwt_token(..., expires_delta=...)` call raises `TypeError`, so the
success `REGISTER` audit event is never written. -/
def register (H : String → String) (S : Store)
    (name email password role : String) (entropy : List Nat)
    (newId ts : String) (ip agent : Option String) (auditFails : Bool) :
    Py TokenResp × Store :=
  match S.users.filter (fun u => u.email == email) with
  | _ :: _ =>
      let ev : AuditEvent :=
        { action := some "REGISTER_FAILED", type := some "user",
          details := some ("reason: Email already registered, email: " ++ email),
          ip := ip, agent := agent, timestamp := ts }
      (.err 400 "Email already registered",
       { S with audit := log_audit_event auditFails ev S.audit })
  | [] =>
      let hs := custom_hash_password H password none entropy
      let row : UserRow :=
        { id := newId, name := name, email := email,
          password_hash := some hs.1, password_salt := some hs.2,
          role := some role, created_at := some ts }
      (.typeError expiresDeltaTypeError,
       { S with users := S.users ++ [row] })

/-- Embedding of `POST /auth/login` (src/main.py:863-910). Unknown email
and wrong password both answer 401 with the same detail; the two failure
paths differ only in the audit event. A correct password reaches the
`create_jwt_token(..., expires_delta=...)` call, which raises `TypeError`
before the success `LOGIN` audit event or the token response. `entropy`
feeds `verify` for the degenerate null-salt row case. -/
def login (H : String → String) (S : Store) (email password : String)
    (entropy : List Nat) (ts : String) (ip agent : Option String)
    (auditFails : Bool) : Py TokenResp × Store :=
  match S.users.filter (fun u => u.email == email) with
  | [] =>
      let ev : AuditEvent :=
        { action := some "LOGIN_FAILED", type := some "user",
          details := some ("reason: User not found, email: " ++ email),
          ip := ip, agent := agent, timestamp := ts }
      (.err 401 "Incorrect email or password",
       { S with audit := log_audit_event auditFails ev S.audit })
  | u :: _ =>
      if !(verify H password u.password_hash u.password_salt entropy) then
        let ev : AuditEvent :=
          { user_id := some u.id,
            action := some "LOGIN_FAILED", type := some "user",
            details := some ("reason: Invalid password, email: " ++ email),
            ip := ip, agent := agent, timestamp := ts }
        (.err 401 "Incorrect email or password",
         { S with audit := log_audit_event auditFails ev S.audit })
      else
        (.typeError expiresDeltaTypeError, S)

/-- Embedding of the legacy `POST /users` handler `create_user`
(src/main.py:361-363): inserts `name`, `email` and the raw `password`
into the `users` table and returns the inserted rows. -/
def create_user (S : Store) (name email password : String) (newId : String) :
    Py (List UserRow) × Store :=
  let row : UserRow := { id := newId, name := name, email := email, password := some password }
  (.ok [row], { S with users := S.users ++ [row] })

/-- Embedding of `GET /customers` (src/main.py:176-197), with the resolved
`current_user` dependency passed in as `actor`. A truthy `assigned_to`
query parameter wins over role scoping; otherwise a `sales_rep` is scoped
to their own id and every other role sees all rows. The read is audited. -/
def list_customers (S : Store) (actor : UserRow) (assigned_to : Option String)
    (ts : String) (ip agent : Option String) (auditFails : Bool) :
    List CustomerRow × Store :=
  let result :=
    if truthy assigned_to then
      S.customers.filter (fun c => c.assigned_to == assigned_to)
    else if actor.role == some "sales_rep" then
      S.customers.filter (fun c => c.assigned_to == some actor.id)
    else
      S.customers
  let ev : AuditEvent :=
    { user_id := some actor.id, action := some "READ", type := some "customer",
      details := some "filter and count payload",
      ip := ip, agent := agent, timestamp := ts }
  (result, { S with audit := log_audit_event auditFails ev S.audit })

/-- Embedding of `GET /deals` (src/main.py:294-301): same scoping rule as
`list_customers`, no audit write. The join decoration of the select is
out of scope; the rows themselves are returned. -/
def list_deals (S : Store) (actor : UserRow) (assigned_to : Option String) :
    List DealRow :=
  if truthy assigned_to then
    S.deals.filter (fun d => d.assigned_to == assigned_to)
  else if actor.role == some "sales_rep" then
    S.deals.filter (fun d => d.assigned_to == some actor.id)
  else
    S.deals

/-- Partial update body of `PUT /customers/{id}` under
`dict(exclude_unset=True)`: `some v` is a field present in the request
body, `none` a field left unset. The `id` key is popped before the update
and so is not modelled. -/
structure CustomerPatch where
  name : Option String := none
  email : Option String := none
  phone : Option String := none
  company : Option String := none
  assigned_to : Option String := none
deriving DecidableEq

/-- Effect of `db.table("customers").update(data)` on one row: every field
present in the patch overwrites the column, absent fields are kept. -/
def applyCustomerPatch (p : CustomerPatch) (c : CustomerRow) : CustomerRow :=
  { c with
    name := match p.name with | some v => v | none => c.name,
    email := match p.email with | some v => some v | none => c.email,
    phone := match p.phone with | some v => some v | none => c.phone,
    company := match p.company with | some v => some v | none => c.company,
    assigned_to := match p.assigned_to with | some v => some v | none => c.assigned_to }

/-- Embedding of `PUT /customers/{id}` (src/main.py:225-257): 404 when the
id does not resolve; 403 for a `sales_rep` whose id differs from the
row's `assigned_to` (`dict.get` yields `None` when the column is null, and
`None != actor id`); 400 when a truthy patched `assigned_to` names no
user; otherwise the row is updated and the write audited. -/
def update_customer (S : Store) (actor : UserRow) (id : String)
    (p : CustomerPatch) (ts : String) (ip agent : Option String)
    (auditFails : Bool) : Py (List CustomerRow) × Store :=
  match S.customers.filter (fun c => c.id == id) with
  | [] => (.err 404 "Customer not found", S)
  | c :: _ =>
      if actor.role == some "sales_rep" && !(c.assigned_to == some actor.id) then
        (.err 403 "Not authorized to update this customer", S)
      else if truthy p.assigned_to &&
          (S.users.filter (fun u => some u.id == p.assigned_to)).isEmpty then
        (.err 400 "Assigned user not found", S)
      else
        let updated := S.customers.map
          (fun x => if x.id == id then applyCustomerPatch p x else x)
        let resp := updated.filter (fun x => x.id == id)
        let ev : AuditEvent :=
          { user_id := some actor.id, action := some "UPDATE",
            type := some "customer", resource_id := some id,
            details := some "old and new data payload",
            ip := ip, agent := agent, timestamp := ts }
        (.ok resp, { S with customers := updated,
                            audit := log_audit_event auditFails ev S.audit })

/-- Embedding of `GET /deals/{deal_id}` (src/main.py:351-359): 404 when the
id does not resolve; 403 for a `sales_rep` not matching the row's
`assigned_to` (a null `assigned_to` is not owned); otherwise the row. -/
def get_deal (S : Store) (actor : UserRow) (deal_id : String) : Py DealRow :=
  match S.deals.filter (fun d => d.id == deal_id) with
  | [] => .err 404 "Deal not found"
  | d :: _ =>
      if actor.role == some "sales_rep" && !(d.assigned_to == some actor.id) then
        .err 403 "Not authorized to view this deal"
      else
        .ok d

/-- Embedding of `DELETE /deals/{deal_id}` (src/main.py:338-349): 404 when
the id does not resolve; 403 for a non-owning `sales_rep`; otherwise the
matching rows are deleted (a second 404 guards an empty delete response,
unreachable after the existence check) and `ok` is returned. -/
def delete_deal (S : Store) (actor : UserRow) (deal_id : String) :
    Py Unit × Store :=
  match S.deals.filter (fun d => d.id == deal_id) with
  | [] => (.err 404 "Deal not found", S)
  | d :: _ =>
      if actor.role == some "sales_rep" && !(d.assigned_to == some actor.id) then
        (.err 403 "Not authorized to delete this deal", S)
      else
        let deleted := S.deals.filter (fun x => x.id == deal_id)
        let remaining := S.deals.filter (fun x => !(x.id == deal_id))
        if deleted.isEmpty then
          (.err 404 "Deal not found", { S with deals := remaining })
        else
          (.ok (), { S with deals := remaining })

/-- Embedding of `PUT /deals/{deal_id}/status` (src/main.py:384-390). The
handler has no `current_user` dependency and performs no token, role or
ownership check — mirrored here by the absence of any actor argument. The
store-side update applies to every row matching the id; an empty update
response yields 404 and is the only failure. -/
def update_deal_status (S : Store) (deal_id : String) (status : String) :
    Py (List DealRow) × Store :=
  let updated := S.deals.map
    (fun d => if d.id == deal_id then { d with status := status } else d)
  let resp := updated.filter (fun d => d.id == deal_id)
  if resp.isEmpty then
    (.err 404 "Deal not found", { S with deals := updated })
  else
    (.ok resp, { S with deals := updated })

/-- Agreement of two handler outcomes on everything except the audit log:
same primary result and same `users`, `customers` and `deals` tables. -/
def primaryAgrees {α : Type} (x y : α × Store) : Prop :=
  x.1 = y.1 ∧ x.2.users = y.2.users ∧ x.2.customers = y.2.customers ∧ x.2.deals = y.2.deals

/-- Store with no rows, used as a concrete starting point. -/
def emptyStore : Store :=
  { users := [], customers := [], deals := [], audit := [] }

/-- Store holding one registered credential: with the digest function
instantiated to `id`, the stored digest of password `hunter2` under salt
`s` is `hashRounds id 6969 ("hunter2" ++ "s") = "hunter2s"`. -/
def authStore : Store :=
  { users := [{ id := "U1", name := "A", email := "a@x.com",
                password_hash := some "hunter2s", password_salt := some "s",
                role := some "sales_rep" }],
    customers := [], deals := [], audit := [] }

/-- Concrete `sales_rep` actor with id `U1`. -/
def repU1 : UserRow :=
  { id := "U1", name := "Rep", email := "rep@x.com", role := some "sales_rep" }

/-- Concrete `manager` actor with id `U3`. -/
def mgrU3 : UserRow :=
  { id := "U3", name := "Mgr", email := "mgr@x.com", role := some "manager" }

/-- Store holding one customer and one deal, both assigned to user `U2`. -/
def aclStore : Store :=
  { users := [],
    customers := [{ id := "C1", name := "Acme", assigned_to := some "U2" }],
    deals := [{ id := "D1", title := "Big", assigned_to := some "U2" }],
    audit := [] }

/-- Store holding one customer and one deal assigned to `U1`. -/
def ownStore : Store :=
  { users := [],
    customers := [{ id := "C1", name := "Acme", assigned_to := some "U1" }],
    deals := [{ id := "D1", title := "Big", assigned_to := some "U1" }],
    audit := [] }

theorem hashRounds_eq_iterate (H : String → String) :
    ∀ (n : Nat) (s : String), hashRounds H n s = H^[n] s := by
  intro n
  induction n with
  | zero => intro s; rfl
  | succ n ih => intro s; simp [hashRounds, ih, Function.iterate_succ_apply]

theorem hashRounds_id (n : Nat) (s : String) : hashRounds id n s = s := by
  simp [hashRounds_eq_iterate]

theorem hexDigit_isHexChar : ∀ n : Nat, n < 16 → isHexChar (hexDigit n) = true := by
  decide

theorem token_hex_data_length (e : List Nat) :
    (e.flatMap (fun b => [hexDigit (b % 256 / 16), hexDigit (b % 16)])).length
      = 2 * e.length := by
  induction e with
  | nil => rfl
  | cons b bs ih => simp [List.flatMap_cons, ih]; omega

theorem token_hex_length (e : List Nat) : (token_hex e).length = 2 * e.length :=
  token_hex_data_length e

theorem mem_hex_flatMap :
    ∀ (e : List Nat) (c : Char),
      c ∈ e.flatMap (fun b => [hexDigit (b % 256 / 16), hexDigit (b % 16)]) →
      isHexChar c = true := by
  intro e c hc
  rw [List.mem_flatMap] at hc
  obtain ⟨b, hb, hc⟩ := hc
  simp only [List.mem_cons, List.not_mem_nil, or_false] at hc
  rcases hc with h1 | h2
  · subst h1; exact hexDigit_isHexChar _ (by omega)
  · subst h2; exact hexDigit_isHexChar _ (by omega)

theorem token_hex_chars (e : List Nat) :
    ∀ c ∈ (token_hex e).toList, isHexChar c = true := by
  intro c hc
  exact mem_hex_flatMap e c hc

/-- C3: `custom_hash_password` concatenates password and salt as text and
then applies the hash `H` for exactly 6969 rounds, each round's input
being exactly the previous round's digest (captured by `H^[6969]`), and
it returns the resulting digest with the salt; with no salt supplied, it
returns the hex rendering of the 32-byte entropy draw as the fresh salt:
a 64-character string of hex digits. -/
theorem custom_hash_password_spec (H : String → String) (p s : String) (e : List Nat) :
    custom_hash_password H p (some s) e = (H^[6969] (p ++ s), s) ∧
    (e.length = 32 →
      custom_hash_password H p none e = (H^[6969] (p ++ token_hex e), token_hex e) ∧
      (token_hex e).length = 64 ∧
      ∀ c ∈ (token_hex e).toList, isHexChar c = true) := by
  have hsome : custom_hash_password H p (some s) e = (hashRounds H 6969 (p ++ s), s) := rfl
  have hnone : custom_hash_password H p none e
      = (hashRounds H 6969 (p ++ token_hex e), token_hex e) := rfl
  constructor
  · rw [hsome, hashRounds_eq_iterate]
  · intro hlen
    refine ⟨by rw [hnone, hashRounds_eq_iterate], ?_, token_hex_chars e⟩
    rw [token_hex_length, hlen]

/-- C3 witness: the theorem instantiated with the identity digest,
password `a`, salt `b` and a concrete 32-byte entropy draw. -/
theorem custom_hash_password_spec_witness :
    custom_hash_password id "a" (some "b") (List.replicate 32 7) = (id^[6969] ("a" ++ "b"), "b") ∧
    (token_hex (List.replicate 32 7)).length = 64 :=
  ⟨(custom_hash_password_spec id "a" "b" (List.replicate 32 7)).1,
   ((custom_hash_password_spec id "a" "b" (List.replicate 32 7)).2 (by simp)).2.1⟩

/-- C4: `verify(p, h, s)` is true iff the digest component of
`hash(p, s)` equals `h` under exact string equality. -/
theorem verify_iff_digest_eq (H : String → String) (p h s : String) (e : List Nat) :
    verify H p (some h) (some s) e = true ↔ (custom_hash_password H p (some s) e).1 = h := by
  simp [verify]

/-- C5: a token minted by `create_jwt_token` for subject `uid` carries the
claims `sub = uid` and `exp = now + 1800`, and `verify_token` applied to
it immediately (same key, same clock) yields `uid`. -/
theorem token_round_trip (key : String) (now : Nat) (uid : String) :
    (create_jwt_token key now (some uid)).claims.sub = some uid ∧
    (create_jwt_token key now (some uid)).claims.exp = now + 1800 ∧
    verify_token key now (create_jwt_token key now (some uid)) = .ok uid := by
  refine ⟨rfl, rfl, ?_⟩
  simp [verify_token, jwt_decode, create_jwt_token, jwt_encode, JWT_EXPIRE]

/-- C1: concrete evaluation of the login endpoint against a store holding
the registered credential (`a@x.com`, password `hunter2`, digest taken
under the identity hash). An unknown email and a wrong password both
answer 401 with the identical detail `Incorrect email or password`; the
correct password reaches the `create_jwt_token(..., expires_delta=...)`
call, which raises `TypeError` — the documented 200 `{access_token,
token_type}` response is never produced. -/
theorem login_success_path_raises_type_error :
    (login id authStore "b@x.com" "hunter2" [] "t" none none false).1
      = .err 401 "Incorrect email or password" ∧
    (login id authStore "a@x.com" "wrong" [] "t" none none false).1
      = .err 401 "Incorrect email or password" ∧
    (login id authStore "a@x.com" "hunter2" [] "t" none none false).1
      = .typeError expiresDeltaTypeError := by
  refine ⟨?_, ?_, ?_⟩ <;>
    simp [login, authStore, verify, custom_hash_password, hashRounds_id]

/-- C2 counterexample: the legacy `POST /users` endpoint `create_user`
inserts the raw password into the user store — the inserted row carries
`password = some "pw"` and no `password_hash`/`password_salt` — so the
claim that every user-creating endpoint stores only `(digest, salt)`
material is false. -/
theorem create_user_stores_plaintext_password :
    ((create_user emptyStore "n" "e@x.com" "pw" "U1").2.users.map
      (fun u => (u.password, u.password_hash, u.password_salt)))
      = [(some "pw", none, none)] := by
  rfl

/-- C2 amended: the registration endpoint of the credential subsystem
stores exactly the `(digest, salt)` pair produced by the hashing routine
and no plaintext password — the row inserted by `register` on a fresh
email has `password = none` and `password_hash`/`password_salt` equal to
the two components of `custom_hash_password` on the raw password. -/
theorem register_stores_hash_and_salt (H : String → String) (S : Store)
    (name email pw role : String) (e : List Nat) (nid ts : String)
    (ip ag : Option String) (b : Bool)
    (hfresh : S.users.filter (fun u => u.email == email) = []) :
    (register H S name email pw role e nid ts ip ag b).2.users
      = S.users ++ [{ id := nid, name := name, email := email,
                      password := none,
                      password_hash := some (custom_hash_password H pw none e).1,
                      password_salt := some (custom_hash_password H pw none e).2,
                      role := some role, created_at := some ts }] := by
  unfold register
  rw [hfresh]

/-- C2 amended witness: registering into the empty store with the identity
hash and a concrete entropy draw stores the digest/salt pair and no
plaintext. -/
theorem register_stores_hash_and_salt_witness :
    (register id emptyStore "n" "e@x.com" "pw" "sales_rep" [0] "U1" "t" none none false).2.users
      = emptyStore.users ++ [{ id := "U1", name := "n", email := "e@x.com",
                               password := none,
                               password_hash := some (custom_hash_password id "pw" none [0]).1,
                               password_salt := some (custom_hash_password id "pw" none [0]).2,
                               role := some "sales_rep", created_at := some "t" }] :=
  register_stores_hash_and_salt id emptyStore "n" "e@x.com" "pw" "sales_rep"
    [0] "U1" "t" none none false (by rfl)

/-- C8: a registration with an email already present in the user store
fails with 400 `Email already registered` and leaves the `users` table
unchanged — no second credential record is inserted. -/
theorem duplicate_register_rejected (H : String → String) (S : Store)
    (name email pw role : String) (e : List Nat) (nid ts : String)
    (ip ag : Option String) (b : Bool)
    (hdup : ∃ u ∈ S.users, u.email = email) :
    (register H S name email pw role e nid ts ip ag b).1
      = .err 400 "Email already registered" ∧
    (register H S name email pw role e nid ts ip ag b).2.users = S.users := by
  obtain ⟨u, hu, hmail⟩ := hdup
  have hne : S.users.filter (fun x => x.email == email) ≠ [] := by
    intro hnil
    rw [List.filter_eq_nil_iff] at hnil
    exact absurd (by simp [hmail]) (hnil u hu)
  cases hf : S.users.filter (fun x => x.email == email) with
  | nil => exact absurd hf hne
  | cons v vs =>
      unfold register
      rw [hf]
      exact ⟨rfl, rfl⟩

/-- C8 witness: a second registration of `a@x.com` against the store that
already holds that credential is rejected with 400 and inserts nothing. -/
theorem duplicate_register_rejected_witness :
    (register id authStore "B" "a@x.com" "pw2" "sales_rep" [] "U9" "t" none none false).1
      = .err 400 "Email already registered" ∧
    (register id authStore "B" "a@x.com" "pw2" "sales_rep" [] "U9" "t" none none false).2.users
      = authStore.users :=
  duplicate_register_rejected id authStore "B" "a@x.com" "pw2" "sales_rep"
    [] "U9" "t" none none false
    ⟨{ id := "U1", name := "A", email := "a@x.com",
       password_hash := some "hunter2s", password_salt := some "s",
       role := some "sales_rep" }, by simp [authStore], rfl⟩

/-- C6: on ownership-scoped resources, a `sales_rep` actor passes the
ownership gate of update/read/delete exactly when the resource's
`assigned_to` equals their id — in particular a null `assigned_to` is
denied — while a `manager` or `admin` actor is never ownership-denied,
whatever `assigned_to` holds. `hc`/`hd` say the customer/deal ids resolve
to rows `c`/`d`. -/
theorem ownership_policy (S : Store) (rep mgr : UserRow) (cid did : String)
    (c : CustomerRow) (cs : List CustomerRow) (d : DealRow) (ds : List DealRow)
    (p : CustomerPatch) (ts : String) (ip ag : Option String) (b : Bool)
    (hrep : rep.role = some "sales_rep")
    (hmgr : mgr.role = some "manager" ∨ mgr.role = some "admin")
    (hc : S.customers.filter (fun x => x.id == cid) = c :: cs)
    (hd : S.deals.filter (fun x => x.id == did) = d :: ds) :
    (c.assigned_to ≠ some rep.id →
        (update_customer S rep cid p ts ip ag b).1
          = .err 403 "Not authorized to update this customer") ∧
    (c.assigned_to = some rep.id →
        (update_customer S rep cid p ts ip ag b).1
          ≠ .err 403 "Not authorized to update this customer") ∧
    (c.assigned_to = none →
        (update_customer S rep cid p ts ip ag b).1
          = .err 403 "Not authorized to update this customer") ∧
    (d.assigned_to ≠ some rep.id →
        get_deal S rep did = .err 403 "Not authorized to view this deal" ∧
        (delete_deal S rep did).1 = .err 403 "Not authorized to delete this deal") ∧
    (d.assigned_to = some rep.id →
        get_deal S rep did = .ok d ∧
        (delete_deal S rep did).1 = .ok ()) ∧
    ((update_customer S mgr cid p ts ip ag b).1
        ≠ .err 403 "Not authorized to update this customer") ∧
    (get_deal S mgr did ≠ .err 403 "Not authorized to view this deal") ∧
    ((delete_deal S mgr did).1 ≠ .err 403 "Not authorized to delete this deal") := by
  have hmgr' : (mgr.role == some "sales_rep") = false := by
    rcases hmgr with h | h <;> simp [h]
  have hdel : S.deals.filter (fun x => x.id == did) ≠ [] := by
    rw [hd]; exact List.cons_ne_nil d ds
  refine ⟨?_, ?_, ?_, ?_, ?_, ?_, ?_, ?_⟩
  · intro hna
    unfold update_customer
    rw [hc]
    simp [hrep, hna]
  · intro hown
    unfold update_customer
    rw [hc]
    simp only [hrep, hown, beq_self_eq_true, Bool.not_true, Bool.and_false,
      Bool.false_eq_true, if_false]
    split
    · simp
    · simp
  · intro hnone
    unfold update_customer
    rw [hc]
    simp [hrep, hnone]
  · intro hna
    constructor
    · unfold get_deal
      rw [hd]
      simp [hrep, hna]
    · unfold delete_deal
      rw [hd]
      simp [hrep, hna]
  · intro hown
    constructor
    · unfold get_deal
      rw [hd]
      simp [hrep, hown]
    · unfold delete_deal
      rw [hd]
      simp only [hrep, hown, beq_self_eq_true, Bool.not_true, Bool.and_false,
        Bool.false_eq_true, if_false]
      simp [List.isEmpty_iff, hdel]
  · unfold update_customer
    rw [hc]
    simp only [hmgr', Bool.false_and, Bool.false_eq_true, if_false]
    split
    · simp
    · simp
  · unfold get_deal
    rw [hd]
    simp [hmgr']
  · unfold delete_deal
    rw [hd]
    simp only [hmgr', Bool.false_and, Bool.false_eq_true, if_false]
    simp [List.isEmpty_iff, hdel]

/-- C6 witness: with the customer `C1` and deal `D1` both assigned to
`U2`, the `sales_rep` `U1` is denied with 403 on update, read and delete,
while the manager `U3` is not ownership-denied on any of them. -/
theorem ownership_policy_witness :
    (update_customer aclStore repU1 "C1" {} "t" none none false).1
      = .err 403 "Not authorized to update this customer" ∧
    get_deal aclStore repU1 "D1" = .err 403 "Not authorized to view this deal" ∧
    (delete_deal aclStore repU1 "D1").1 = .err 403 "Not authorized to delete this deal" ∧
    (update_customer aclStore mgrU3 "C1" {} "t" none none false).1
      ≠ .err 403 "Not authorized to update this customer" ∧
    get_deal aclStore mgrU3 "D1" ≠ .err 403 "Not authorized to view this deal" ∧
    (delete_deal aclStore mgrU3 "D1").1 ≠ .err 403 "Not authorized to delete this deal" := by
  have h := ownership_policy aclStore repU1 mgrU3 "C1" "D1"
    { id := "C1", name := "Acme", assigned_to := some "U2" } []
    { id := "D1", title := "Big", assigned_to := some "U2" } []
    {} "t" none none false rfl (Or.inl rfl) (by rfl) (by rfl)
  obtain ⟨h1, _, _, h4, _, h6, h7, h8⟩ := h
  exact ⟨h1 (by decide), (h4 (by decide)).1, (h4 (by decide)).2, h6, h7, h8⟩

/-- C7 counterexample: the listing endpoints run the caller's filter
through Python truthiness (`if assigned_to:`), so an explicitly supplied
empty-string filter is NOT applied verbatim: against the store whose only
customer is assigned to `U2`, a manager supplying `assigned_to = ""`
receives that customer, whereas verbatim application of the filter would
return no rows. -/
theorem listing_empty_filter_not_verbatim :
    (list_customers aclStore mgrU3 (some "") "t" none none false).1
      ≠ aclStore.customers.filter (fun c => c.assigned_to == some "") := by
  decide

/-- C7 amended: a supplied non-empty `assigned_to` filter is applied
verbatim regardless of the actor's role; a missing filter — or a supplied
empty-string filter, which truthiness treats as missing — falls back to
role scoping: a `sales_rep` receives only rows whose `assigned_to` equals
their own id, while a `manager` or `admin` receives all rows. -/
theorem listing_filter_policy (S : Store) (actor : UserRow) (v : String)
    (ts : String) (ip ag : Option String) (b : Bool) (hv : v ≠ "") :
    ((list_customers S actor (some v) ts ip ag b).1
        = S.customers.filter (fun c => c.assigned_to == some v) ∧
     list_deals S actor (some v)
        = S.deals.filter (fun d => d.assigned_to == some v)) ∧
    (actor.role = some "sales_rep" →
      ((list_customers S actor none ts ip ag b).1
          = S.customers.filter (fun c => c.assigned_to == some actor.id) ∧
       (list_customers S actor (some "") ts ip ag b).1
          = S.customers.filter (fun c => c.assigned_to == some actor.id) ∧
       list_deals S actor none
          = S.deals.filter (fun d => d.assigned_to == some actor.id) ∧
       list_deals S actor (some "")
          = S.deals.filter (fun d => d.assigned_to == some actor.id))) ∧
    (actor.role = some "manager" ∨ actor.role = some "admin" →
      ((list_customers S actor none ts ip ag b).1 = S.customers ∧
       (list_customers S actor (some "") ts ip ag b).1 = S.customers ∧
       list_deals S actor none = S.deals ∧
       list_deals S actor (some "") = S.deals)) := by
  have htr : truthy (some v) = true := by simp [truthy, hv]
  refine ⟨⟨?_, ?_⟩, ?_, ?_⟩
  · simp [list_customers, htr]
  · simp [list_deals, htr]
  · intro hrole
    refine ⟨?_, ?_, ?_, ?_⟩ <;> simp [list_customers, list_deals, truthy, hrole]
  · intro hrole
    have hne : (actor.role == some "sales_rep") = false := by
      rcases hrole with h | h <;> simp [h]
    refine ⟨?_, ?_, ?_, ?_⟩ <;> simp [list_customers, list_deals, truthy, hne]

/-- C7 amended witness: against the store whose only rows are assigned to
`U2`, the explicit filter `U2` is honored verbatim for the `sales_rep`
`U1`, and with no filter the `sales_rep` gets nothing while the manager
gets every row. -/
theorem listing_filter_policy_witness :
    (list_customers aclStore repU1 (some "U2") "t" none none false).1
      = aclStore.customers.filter (fun c => c.assigned_to == some "U2") ∧
    (list_customers aclStore repU1 none "t" none none false).1
      = aclStore.customers.filter (fun c => c.assigned_to == some "U1") ∧
    (list_customers aclStore mgrU3 none "t" none none false).1 = aclStore.customers := by
  have h1 := listing_filter_policy aclStore repU1 "U2" "t" none none false (by decide)
  have h2 := listing_filter_policy aclStore mgrU3 "U2" "t" none none false (by decide)
  exact ⟨h1.1.1, (h1.2.1 rfl).1, (h2.2.2 (Or.inl rfl)).1⟩

/-- C9: the audit insert is fire-and-forget — `log_audit_event` swallows
the failure inside its `try/except` — so for every audit-emitting handler
embedded here (`login`, `register`, `list_customers`, `update_customer`)
the primary outcome (result value, including any raised error, and the
`users`/`customers`/`deals` tables) is identical whether the audit-store
insert succeeds (`b2`) or fails (`b1`). -/
theorem audit_failure_is_transparent (H : String → String) (S : Store)
    (name email pw role : String) (e : List Nat) (nid ts : String)
    (actor : UserRow) (cid : String) (p : CustomerPatch)
    (f : Option String) (ip ag : Option String) (b1 b2 : Bool) :
    primaryAgrees (login H S email pw e ts ip ag b1)
                  (login H S email pw e ts ip ag b2) ∧
    primaryAgrees (register H S name email pw role e nid ts ip ag b1)
                  (register H S name email pw role e nid ts ip ag b2) ∧
    primaryAgrees (list_customers S actor f ts ip ag b1)
                  (list_customers S actor f ts ip ag b2) ∧
    primaryAgrees (update_customer S actor cid p ts ip ag b1)
                  (update_customer S actor cid p ts ip ag b2) := by
  refine ⟨?_, ?_, ?_, ?_⟩
  · unfold login
    cases hf : S.users.filter (fun u => u.email == email) with
    | nil => exact ⟨rfl, rfl, rfl, rfl⟩
    | cons u us =>
        simp only []
        split
        · exact ⟨rfl, rfl, rfl, rfl⟩
        · exact ⟨rfl, rfl, rfl, rfl⟩
  · unfold register
    cases hf : S.users.filter (fun u => u.email == email) with
    | nil => exact ⟨rfl, rfl, rfl, rfl⟩
    | cons u us => exact ⟨rfl, rfl, rfl, rfl⟩
  · exact ⟨rfl, rfl, rfl, rfl⟩
  · unfold update_customer
    cases hf : S.customers.filter (fun c => c.id == cid) with
    | nil => exact ⟨rfl, rfl, rfl, rfl⟩
    | cons c cs =>
        simp only []
        split
        · exact ⟨rfl, rfl, rfl, rfl⟩
        · split
          · exact ⟨rfl, rfl, rfl, rfl⟩
          · exact ⟨rfl, rfl, rfl, rfl⟩

/-- C10: `PUT /deals/{deal_id}/status` takes no actor, token or role input
at all (the embedded handler has no such argument, mirroring the missing
`current_user` dependency): whenever the deal id resolves, the update
succeeds and sets the status of every matching row; when it does not
resolve, the only failure — 404 — is returned and the store is unchanged. -/
theorem update_deal_status_unauthenticated (S : Store) (did st : String) :
    (S.deals.filter (fun x => x.id == did) ≠ [] →
      (update_deal_status S did st).1
        = .ok ((update_deal_status S did st).2.deals.filter (fun x => x.id == did)) ∧
      (update_deal_status S did st).2.deals
        = S.deals.map (fun x => if x.id == did then { x with status := st } else x) ∧
      ∀ x ∈ (update_deal_status S did st).2.deals, x.id = did → x.status = st) ∧
    (S.deals.filter (fun x => x.id == did) = [] →
      update_deal_status S did st = (.err 404 "Deal not found", S)) := by
  have key : update_deal_status S did st
      = if ((S.deals.map (fun x => if x.id == did then { x with status := st } else x)).filter
              (fun x => x.id == did)).isEmpty
        then (.err 404 "Deal not found",
              { S with deals := S.deals.map (fun x => if x.id == did then { x with status := st } else x) })
        else (.ok ((S.deals.map (fun x => if x.id == did then { x with status := st } else x)).filter
                (fun x => x.id == did)),
              { S with deals := S.deals.map (fun x => if x.id == did then { x with status := st } else x) }) := rfl
  have hmapfilter :
      (S.deals.map (fun x => if x.id == did then { x with status := st } else x)).filter
          (fun x => x.id == did)
        = (S.deals.filter (fun x => x.id == did)).map
            (fun x => if x.id == did then { x with status := st } else x) := by
    rw [List.filter_map]
    congr 1
    apply List.filter_congr
    intro x _
    simp only [Function.comp_apply]
    by_cases hx : x.id = did
    · simp [hx]
    · simp [hx]
  constructor
  · intro hne
    have hie : ((S.deals.map (fun x => if x.id == did then { x with status := st } else x)).filter
        (fun x => x.id == did)).isEmpty = false := by
      rw [hmapfilter]
      rcases hx : S.deals.filter (fun x => x.id == did) with _ | ⟨y, ys⟩
      · exact absurd hx hne
      · rw [hx]
        rfl
    have hupd : update_deal_status S did st
        = (.ok ((S.deals.map (fun x => if x.id == did then { x with status := st } else x)).filter
              (fun x => x.id == did)),
           { S with deals := S.deals.map (fun x => if x.id == did then { x with status := st } else x) }) := by
      rw [key]
      exact if_neg (by rw [hie]; simp)
    refine ⟨?_, ?_, ?_⟩
    · rw [hupd]
    · rw [hupd]
    · intro x hx hxid
      rw [hupd] at hx
      simp only [List.mem_map] at hx
      obtain ⟨y, _, hy⟩ := hx
      by_cases hyid : y.id = did
      · rw [← hy]
        simp [hyid]
      · exfalso
        rw [← hy] at hxid
        simp [hyid] at hxid
  · intro hnil
    have hall : ∀ x ∈ S.deals, (x.id == did) = false := by
      intro x hx
      have := List.filter_eq_nil_iff.mp hnil x hx
      simpa using this
    have hmap : S.deals.map (fun x => if x.id == did then { x with status := st } else x)
        = S.deals := by
      have hcongr : S.deals.map (fun x => if x.id == did then { x with status := st } else x)
          = S.deals.map id := by
        apply List.map_congr_left
        intro x hx
        simp [hall x hx]
      rw [hcongr, List.map_id]
    rw [key, hmap, hnil]
    rfl

/-- C10 witness: with no authentication input available at all, updating
the status of the existing deal `D1` succeeds, and updating the unknown id
`D9` answers 404 and leaves the store unchanged. -/
theorem update_deal_status_unauthenticated_witness :
    (update_deal_status aclStore "D1" "won").1
      = .ok ((update_deal_status aclStore "D1" "won").2.deals.filter (fun x => x.id == "D1")) ∧
    update_deal_status aclStore "D9" "won" = (.err 404 "Deal not found", aclStore) :=
  ⟨((update_deal_status_unauthenticated aclStore "D1" "won").1 (by decide)).1,
   (update_deal_status_unauthenticated aclStore "D9" "won").2 (by decide)⟩

end CRM
